import Mathlib

/-!
Verification of the CoreSight debug transport core of the pyOCD debugger
against its design specification.

The definitions below are a shallow embedding of the Python sources:

* `MemAp` embeds the MEM-AP block transfer engine of
  `pyOCD/coresight/ap.py` (`writeBlockMemoryAligned32`,
  `readBlockMemoryAligned32`, `readBlockMemoryUnaligned8`).
* `DebugPort` embeds the SELECT/CSW cache logic and the debug power-up
  loop of `pyOCD/coresight/dap.py`.
* `FPB` embeds the hardware breakpoint comparator logic of
  `pyOCD/coresight/fpb.py` (identical to
  `CortexM.setHardwareBreakpoint` in `pyOCD/coresight/cortex_m.py`).
* `BreakpointManager` embeds `pyOCD/debug/breakpoints/manager.py`.
* `CortexM` embeds the core register write path of
  `pyocd/coresight/cortex_m.py` and the register classification of
  `pyocd/coresight/core_registers.py`.

Python integers are arbitrary precision, so machine values are `Nat`
(or `Int` where the source stores the `-1` cache sentinel), with masks
applied exactly where the source applies them.  Loops that the source
bounds only by data are given explicit fuel; fuel exhaustion models
divergence of the source loop.
-/

namespace MemAp

/-- Static table mapping an AHB AP IDR to the auto-increment wrap size,
from `AHB_IDR_TO_WRAP_SIZE` in `pyOCD/coresight/ap.py`. -/
def AHB_IDR_TO_WRAP_SIZE : List (Nat × Nat) :=
  [(0x24770011, 0x1000),
   (0x44770001, 0x400),
   (0x04770031, 0x400),
   (0x04770021, 0x400),
   (0x64770001, 0x400),
   (0x74770001, 0x400)]

/-- The `MEM_AP.init`: the auto-increment page size is looked up from the IDR
table and defaults to `0x400` for unknown IDR values. -/
def autoIncrementPageSize (idr : Nat) : Nat :=
  (AHB_IDR_TO_WRAP_SIZE.lookup idr).getD 0x400

/-- The chunk length in bytes computed at the top of each iteration of the
aligned block transfer loops:
`n = page_size - (addr & (page_size-1)); if size*4 < n: n = (size*4) & 0xfffffffc`
where `size` is the remaining word count. -/
def alignedChunkLen (pageSize addr size : Nat) : Nat :=
  let n := pageSize - (addr &&& (pageSize - 1))
  if size * 4 < n then (size * 4) &&& 0xfffffffc else n

/-- Loop body of `MEM_AP.writeBlockMemoryAligned32`.  Each iteration issues
one transport transaction `transport.writeBlock32(addr, data[:n/4])`,
recorded as the pair of the start address and the transferred words.
The source loop has no fuel; it terminates because each iteration of a
well-formed (word-aligned) transfer consumes at least one word, which the
fuel argument makes explicit. -/
def writeBlock32Go (pageSize : Nat) : Nat → Nat → List Nat → List (Nat × List Nat)
  | 0, _, _ => []
  | fuel + 1, addr, data =>
    if data.length = 0 then []
    else
      let n := alignedChunkLen pageSize addr data.length
      (addr, data.take (n / 4)) ::
        writeBlock32Go pageSize fuel (addr + n) (data.drop (n / 4))

/-- The `MEM_AP.writeBlockMemoryAligned32(addr, data)`: the list of transport
transactions issued for a block write of `data` (32-bit words) at `addr`. -/
def writeBlockMemoryAligned32 (pageSize addr : Nat) (data : List Nat) :
    List (Nat × List Nat) :=
  writeBlock32Go pageSize (data.length + 1) addr data

/-- A transport read operation issued by the MEM-AP, as seen by the
transport layer: a single 8-bit read, a single 16-bit read, or an aligned
32-bit block read of a number of words. -/
inductive MemOp where
  | read8 : Nat → MemOp
  | read16 : Nat → MemOp
  | readBlock32 : Nat → Nat → MemOp
  deriving DecidableEq, Repr

/-- Target memory is modelled as a byte function; the transport masks each
byte to 8 bits. -/
def byteAt (mem : Nat → Nat) (a : Nat) : Nat := mem a % 256

/-- Value returned by a 16-bit transport read: two little-endian bytes. -/
def read16val (mem : Nat → Nat) (a : Nat) : Nat :=
  byteAt mem a + 256 * byteAt mem (a + 1)

/-- Value returned for one word of a 32-bit transport read: four
little-endian bytes. -/
def read32val (mem : Nat → Nat) (a : Nat) : Nat :=
  byteAt mem a + 256 * byteAt mem (a + 1) + 65536 * byteAt mem (a + 2)
    + 16777216 * byteAt mem (a + 3)

/-- Modelled from the spec: `conversion.word2byte` from
`pyOCD/utility/conversion.py`, which is not among the provided sources.
Per the spec (§4.3, concatenation of block reads equals the byte buffer,
with the byte order visible in the 16-bit segments of
`readBlockMemoryUnaligned8`), each 32-bit word is split into four bytes,
least significant byte first. -/
def word2byte (words : List Nat) : List Nat :=
  words.flatMap fun w =>
    [w &&& 0xff, (w >>> 8) &&& 0xff, (w >>> 16) &&& 0xff, (w >>> 24) &&& 0xff]

/-- Loop body of `MEM_AP.readBlockMemoryAligned32`: issues one
`transport.readBlock32(addr, n/4)` per page-bounded chunk and concatenates
the word values. -/
def readAligned32Go (pageSize : Nat) (mem : Nat → Nat) :
    Nat → Nat → Nat → List MemOp × List Nat
  | 0, _, _ => ([], [])
  | fuel + 1, addr, size =>
    if size = 0 then ([], [])
    else
      let n := alignedChunkLen pageSize addr size
      let rest := readAligned32Go pageSize mem fuel (addr + n) (size - n / 4)
      (MemOp.readBlock32 addr (n / 4) :: rest.1,
       ((List.range (n / 4)).map fun i => read32val mem (addr + 4 * i)) ++ rest.2)

/-- The `MEM_AP.readBlockMemoryAligned32(addr, size)`: the transport
transactions issued and the words returned for an aligned block read of
`size` words. -/
def readBlockMemoryAligned32 (pageSize : Nat) (mem : Nat → Nat)
    (addr size : Nat) : List MemOp × List Nat :=
  readAligned32Go pageSize mem (size + 1) addr size

/-- Intermediate state of `MEM_AP.readBlockMemoryUnaligned8`: operations
issued so far, result bytes accumulated in `res`, and the current `addr`
and remaining `size` locals. -/
structure RState where
  ops : List MemOp
  res : List Nat
  addr : Nat
  size : Nat

/-- First segment of `readBlockMemoryUnaligned8`:
`if (size > 0) and (addr & 0x01): read 8 bits`. -/
def step8lead (mem : Nat → Nat) (st : RState) : RState :=
  if 0 < st.size ∧ st.addr &&& 0x01 ≠ 0 then
    { ops := st.ops ++ [MemOp.read8 st.addr],
      res := st.res ++ [byteAt mem st.addr],
      addr := st.addr + 1, size := st.size - 1 }
  else st

/-- Second segment: `if (size > 1) and (addr & 0x02): read 16 bits`,
appending the low then high byte of the halfword. -/
def step16lead (mem : Nat → Nat) (st : RState) : RState :=
  if 1 < st.size ∧ st.addr &&& 0x02 ≠ 0 then
    let v := read16val mem st.addr
    { ops := st.ops ++ [MemOp.read16 st.addr],
      res := st.res ++ [v &&& 0xff, (v >>> 8) &&& 0xff],
      addr := st.addr + 2, size := st.size - 2 }
  else st

/-- Third segment: `if (size >= 4): readBlockMemoryAligned32(addr, size/4)`
followed by `res += word2byte(mem)` and advancing by the words returned. -/
def step32 (pageSize : Nat) (mem : Nat → Nat) (st : RState) : RState :=
  if 4 ≤ st.size then
    let r := readBlockMemoryAligned32 pageSize mem st.addr (st.size / 4)
    { ops := st.ops ++ r.1,
      res := st.res ++ word2byte r.2,
      addr := st.addr + 4 * r.2.length, size := st.size - 4 * r.2.length }
  else st

/-- Fourth segment: `if (size > 1): read 16 bits`. -/
def step16trail (mem : Nat → Nat) (st : RState) : RState :=
  if 1 < st.size then
    let v := read16val mem st.addr
    { ops := st.ops ++ [MemOp.read16 st.addr],
      res := st.res ++ [v &&& 0xff, (v >>> 8) &&& 0xff],
      addr := st.addr + 2, size := st.size - 2 }
  else st

/-- Fifth segment: `if (size > 0): read 8 bits`. -/
def step8trail (mem : Nat → Nat) (st : RState) : RState :=
  if 0 < st.size then
    { ops := st.ops ++ [MemOp.read8 st.addr],
      res := st.res ++ [byteAt mem st.addr],
      addr := st.addr + 1, size := st.size - 1 }
  else st

/-- The `MEM_AP.readBlockMemoryUnaligned8(addr, size)`: the transport
operations issued and the byte list returned. -/
def readBlockMemoryUnaligned8 (pageSize : Nat) (mem : Nat → Nat)
    (addr size : Nat) : List MemOp × List Nat :=
  let st := step8trail mem (step16trail mem (step32 pageSize mem
    (step16lead mem (step8lead mem ⟨[], [], addr, size⟩))))
  (st.ops, st.res)

end MemAp

namespace DebugPort

/-- The `APSEL` mask from `pyOCD/coresight/dap.py`. -/
def APSEL : Nat := 0xff000000

/-- The `APBANKSEL` mask from `pyOCD/coresight/dap.py`. -/
def APBANKSEL : Nat := 0x000000f0

/-- The cached registers of `DebugPort`: `self.csw` and `self.dp_select`,
both initialised to the invalid sentinel `-1` and reset to it on errors. -/
structure DPState where
  csw : Int
  dp_select : Int
  deriving DecidableEq, Repr

/-- The `DebugPort.__init__`: both caches start at the `-1` sentinel. -/
def initState : DPState := ⟨-1, -1⟩

/-- Cache effect of `DebugPort._handle_error`: both cached registers are
invalidated.  (The source additionally clears the sticky error for fault
errors and invokes the fault recovery callback; neither touches the
caches.) -/
def handleError (_st : DPState) : DPState := ⟨-1, -1⟩

/-- Cache effect of `DebugPort.reset` / `DebugPort.flush` /
`DebugPort.assert_reset`: both cached registers are invalidated. -/
def dpReset (_st : DPState) : DPState := ⟨-1, -1⟩

/-- The SELECT branch of `DebugPort.writeDP`: the write is skipped when
`data` equals the cached value, otherwise the cache is updated and the
link write issued.  Returns the new state and whether a link write was
issued. -/
def writeSelect (st : DPState) (data : Nat) : DPState × Bool :=
  if (data : Int) = st.dp_select then (st, false)
  else ({ st with dp_select := (data : Int) }, true)

/-- Result of `DebugPort.writeAP`: the new cache state, the SELECT write
issued to the DP (if not elided), and the data written to the AP register
(if not elided by the CSW cache). -/
structure APWriteResult where
  state : DPState
  selectWrite : Option Nat
  apWrite : Option Nat
  deriving DecidableEq, Repr

/-- The `DebugPort.writeAP(addr, data)`: writes SELECT with
`(addr & APSEL) | (addr & APBANKSEL)` through the SELECT cache, then
writes the AP register through the CSW cache (the CSW cache applies only
to AP address `0x00`, `AP_REG[CSW]`). -/
def writeAP (st : DPState) (addr data : Nat) : APWriteResult :=
  let sel := (addr &&& APSEL) ||| (addr &&& APBANKSEL)
  let s := writeSelect st sel
  let selectWrite := if s.2 then some sel else none
  if addr = 0x00 then
    if (data : Int) = s.1.csw then ⟨s.1, selectWrite, none⟩
    else ⟨{ s.1 with csw := (data : Int) }, selectWrite, some data⟩
  else ⟨s.1, selectWrite, some data⟩

/-- The `DebugPort.readAP(addr)`: writes SELECT through the cache then issues
the AP read; returns the new state and the SELECT write (if issued). -/
def readAP (st : DPState) (addr : Nat) : DPState × Option Nat :=
  let sel := (addr &&& APSEL) ||| (addr &&& APBANKSEL)
  let s := writeSelect st sel
  (s.1, if s.2 then some sel else none)

/-- The `CSYSPWRUPACK` bit of CTRL/STAT. -/
def CSYSPWRUPACK : Nat := 0x80000000

/-- The `CDBGPWRUPACK` bit of CTRL/STAT. -/
def CDBGPWRUPACK : Nat := 0x20000000

/-- The `CSYSPWRUPREQ` bit of CTRL/STAT. -/
def CSYSPWRUPREQ : Nat := 0x40000000

/-- The `CDBGPWRUPREQ` bit of CTRL/STAT. -/
def CDBGPWRUPREQ : Nat := 0x10000000

/-- The `TRNNORMAL` field value of CTRL/STAT. -/
def TRNNORMAL : Nat := 0x00000000

/-- The `MASKLANE` field value of CTRL/STAT. -/
def MASKLANE : Nat := 0x00000f00

/-- The exit condition of the `powerUpDebug` polling loop:
`(r & (CDBGPWRUPACK | CSYSPWRUPACK)) == (CDBGPWRUPACK | CSYSPWRUPACK)`. -/
def powerUpAcksSet (r : Nat) : Prop :=
  r &&& (CDBGPWRUPACK ||| CSYSPWRUPACK) = CDBGPWRUPACK ||| CSYSPWRUPACK

instance (r : Nat) : Decidable (powerUpAcksSet r) := by
  unfold powerUpAcksSet; infer_instance

/-- The `while True` polling loop of `DebugPort.powerUpDebug`, reading
CTRL/STAT values from the response sequence `seq`.  The source loop has no
bound at all; the explicit fuel only truncates the model, and returns the
index of the poll at which the loop exited. -/
def powerUpPoll (seq : Nat → Nat) : Nat → Nat → Option Nat
  | 0, _ => none
  | fuel + 1, k =>
    if powerUpAcksSet (seq k) then some k else powerUpPoll seq fuel (k + 1)

/-- The polling loop of `powerUpDebug` terminates on response sequence
`seq`: some finite amount of fuel suffices. -/
def PowerUpLoopTerminates (seq : Nat → Nat) : Prop :=
  ∃ fuel, (powerUpPoll seq fuel 0).isSome

/-- A DP register write issued by `powerUpDebug`. -/
inductive DPWrite where
  | select : Nat → DPWrite
  | ctrlStat : Nat → DPWrite
  deriving DecidableEq, Repr

/-- The `DebugPort.powerUpDebug`: write SELECT 0 (through the cache), write
the power-up requests to CTRL/STAT, poll CTRL/STAT until both ACK bits are
set, then write the normal-transaction/mask-lane value and SELECT 0 again
(the final SELECT write is always elided by the cache just updated).
`none` models divergence of the unbounded source loop within `fuel`
polls. -/
def powerUpDebug (st : DPState) (seq : Nat → Nat) (fuel : Nat) :
    Option (DPState × List DPWrite) :=
  let s := writeSelect st 0
  let pre := (if s.2 then [DPWrite.select 0] else [])
    ++ [DPWrite.ctrlStat (CSYSPWRUPREQ ||| CDBGPWRUPREQ)]
  match powerUpPoll seq fuel 0 with
  | none => none
  | some _ =>
    let s2 := writeSelect s.1 0
    some (s2.1, pre
      ++ [DPWrite.ctrlStat (CSYSPWRUPREQ ||| CDBGPWRUPREQ ||| TRNNORMAL ||| MASKLANE)]
      ++ (if s2.2 then [DPWrite.select 0] else []))

end DebugPort

namespace FPB

/-- The `FP_CTRL` register address from `pyOCD/coresight/fpb.py`. -/
def FP_CTRL : Nat := 0xE0002000

/-- The `FP_CTRL_KEY = 1 << 1`. -/
def FP_CTRL_KEY : Nat := 1 <<< 1

/-- The `FP_COMP0` register address. -/
def FP_COMP0 : Nat := 0xE0002008

/-- One hardware breakpoint comparator slot, as held in
`self.hw_breakpoints`. -/
structure HwBreakpoint where
  comp_register_addr : Nat
  enabled : Bool
  addr : Nat
  deriving DecidableEq, Repr

/-- The FPB state used by `set_breakpoint`. -/
structure FPBState where
  hw_breakpoints : List HwBreakpoint
  num_hw_breakpoint_used : Nat
  fpb_enabled : Bool
  deriving DecidableEq, Repr

/-- The `FPB.available_breakpoints` (the source calls it through the spelling
`availableBreakpoint` in `set_breakpoint`; both compute
`len(self.hw_breakpoints) - self.num_hw_breakpoint_used`, visible in
`CortexM.availableBreakpoint` in `pyOCD/coresight/cortex_m.py`). -/
def available_breakpoints (st : FPBState) : Nat :=
  st.hw_breakpoints.length - st.num_hw_breakpoint_used

/-- The `for bp in self.hw_breakpoints` scan of `set_breakpoint`: find the
first disabled comparator, mark it enabled with the requested address, and
produce the comparator register write
`(addr & 0x1ffffffc) | bp_match | 1` with
`bp_match = (2 << 30) if (addr & 0x2) else (1 << 30)`.
Returns `none` when every comparator is enabled. -/
def setBpScan (addr : Nat) :
    List HwBreakpoint → Option (List HwBreakpoint × Nat × Nat)
  | [] => none
  | bp :: rest =>
    if bp.enabled then
      match setBpScan addr rest with
      | none => none
      | some (rest2, ca, v) => some (bp :: rest2, ca, v)
    else
      some ({ bp with enabled := true, addr := addr } :: rest,
        bp.comp_register_addr,
        (addr &&& 0x1ffffffc) |||
          (if addr &&& 0x2 ≠ 0 then 2 <<< 30 else 1 <<< 30) ||| 1)

/-- Result of `FPB.set_breakpoint`: the returned success flag, the new
state, and the memory writes issued (an `FP_CTRL` enable write when the
FPB was disabled, then the comparator write on success). -/
structure SetBpResult where
  success : Bool
  state : FPBState
  writes : List (Nat × Nat)
  deriving DecidableEq, Repr

/-- The `FPB.set_breakpoint(addr)`: enable the FPB if needed; fail for
`addr >= 0x20000000`; fail when no comparator is available; otherwise
program the first free comparator. -/
def set_breakpoint (st : FPBState) (addr : Nat) : SetBpResult :=
  let enableWrites := if st.fpb_enabled then [] else [(FP_CTRL, FP_CTRL_KEY ||| 1)]
  let st := if st.fpb_enabled then st else { st with fpb_enabled := true }
  if 0x20000000 ≤ addr then ⟨false, st, enableWrites⟩
  else if available_breakpoints st = 0 then ⟨false, st, enableWrites⟩
  else
    match setBpScan addr st.hw_breakpoints with
    | none => ⟨false, st, enableWrites⟩
    | some (comps, ca, v) =>
      ⟨true,
       { st with hw_breakpoints := comps,
                 num_hw_breakpoint_used := st.num_hw_breakpoint_used + 1 },
       enableWrites ++ [(ca, v)]⟩

end FPB

namespace BreakpointManager

/-- The `BreakpointManager.MIN_HW_BREAKPOINTS`. -/
def MIN_HW_BREAKPOINTS : Nat := 1

/-- The breakpoint type constants `Target.BREAKPOINT_{AUTO,HW,SW,FLASH}`. -/
inductive BpRequestType where
  | auto | hw | sw | flash
  deriving DecidableEq, Repr

/-- Classification of the memory region found for the breakpoint address
(`region.isFlash` / `region.isRam`). -/
structure Region where
  isFlash : Bool
  isRam : Bool
  deriving DecidableEq, Repr

/-- Environment read by `_select_breakpoint_type`: the memory region for
the address (`none` when there is no memory map or no region matches),
whether an FPB provider is registered, its free comparator count, and
whether a flash breakpoint provider is registered. -/
structure SelectEnv where
  region : Option Region
  fpb : Bool
  fpbAvailable : Nat
  flash_bp : Bool
  deriving DecidableEq, Repr

/-- The `BreakpointManager._select_breakpoint_type(bp, allowAllHwBps)`,
returning the chosen provider type or `none` when no provider fits. -/
def select_breakpoint_type (env : SelectEnv) (bpType : BpRequestType)
    (addr : Nat) (allowAllHwBps : Bool) : Option BpRequestType :=
  let t0 := match env.region with
    | none => (BpRequestType.hw, false, false)
    | some r => (bpType, r.isFlash, r.isRam)
  let ty := t0.1
  let is_flash := t0.2.1
  let is_ram := t0.2.2
  let in_hw_bkpt_range : Bool := decide (addr < 0x20000000)
  let haveHwBp : Bool := env.fpb &&
    (decide (MIN_HW_BREAKPOINTS < env.fpbAvailable) ||
      (allowAllHwBps && decide (0 < env.fpbAvailable)))
  let afterAuto : Option BpRequestType :=
    if ty = BpRequestType.auto then
      if !in_hw_bkpt_range || !haveHwBp then
        if is_ram then some BpRequestType.sw
        else if is_flash then some BpRequestType.flash
        else none
      else some BpRequestType.hw
    else some ty
  match afterAuto with
  | none => none
  | some ty =>
    let afterRange : Option BpRequestType :=
      if ty = BpRequestType.hw && !in_hw_bkpt_range then
        if is_ram then some BpRequestType.sw
        else if is_flash && env.flash_bp then some BpRequestType.flash
        else none
      else some ty
    match afterRange with
    | none => none
    | some ty =>
      if is_flash then
        if !haveHwBp && env.flash_bp then some BpRequestType.flash
        else if in_hw_bkpt_range && haveHwBp then some BpRequestType.hw
        else none
      else some ty

/-- The `allowAllHwBps` flag computed in `BreakpointManager.flush`:
`not isStep and len(added) == 1`. -/
def allowAllHwBps (isStep : Bool) (addedLen : Nat) : Bool :=
  !isStep && decide (addedLen = 1)

/-- A pending or live breakpoint entry of the manager.  `unrealized`
corresponds to the placeholder `UnrealizedBreakpoint` created by
`set_breakpoint`; `realized` stands for a provider breakpoint object
reused from the live map. -/
inductive BpEntry where
  | unrealized : BpRequestType → Nat → BpEntry
  | realized : BpRequestType → Nat → BpEntry
  deriving DecidableEq, Repr

/-- The two address-keyed maps of `BreakpointManager`:
`self._breakpoints` (live) and `self._updated_breakpoints` (pending). -/
structure ManagerState where
  breakpoints : Nat → Option BpEntry
  updated_breakpoints : Nat → Option BpEntry

/-- The `addr & ~1`: clear the Thumb bit. -/
def clearThumb (addr : Nat) : Nat := 2 * (addr / 2)

/-- The `BreakpointManager.set_breakpoint(addr, type)`: clear the Thumb bit;
return success if the address is already pending; otherwise reuse the live
breakpoint object or create a placeholder, record it as pending, and
return success.  (The source also computes the unused locals
`in_hw_bkpt_range`, `fbp_available` and `fbp_below_min`, which only read
FPB state and are dead in this method.) -/
def set_breakpoint (st : ManagerState) (addr : Nat) (ty : BpRequestType) :
    ManagerState × Bool :=
  let a := clearThumb addr
  match st.updated_breakpoints a with
  | some _ => (st, true)
  | none =>
    let bp := match st.breakpoints a with
      | some old => old
      | none => BpEntry.unrealized ty a
    ({ st with updated_breakpoints :=
        fun x => if x = a then some bp else st.updated_breakpoints x },
     true)

/-- Python `del d[k]`: remove the key, or raise `KeyError` if absent. -/
def delItem (m : Nat → Option BpEntry) (a : Nat) :
    Except Unit (Nat → Option BpEntry) :=
  match m a with
  | some _ => Except.ok fun x => if x = a then none else m x
  | none => Except.error ()

/-- The `BreakpointManager.remove_breakpoint(addr)`: clear the Thumb bit and
delete the pending entry; a `KeyError` is caught and only logged, leaving
the state unchanged. -/
def remove_breakpoint (st : ManagerState) (addr : Nat) : ManagerState :=
  match delItem st.updated_breakpoints (clearThumb addr) with
  | Except.ok m => { st with updated_breakpoints := m }
  | Except.error _ => st

end BreakpointManager

namespace CortexM

/-- The `CortexM.DCRSR` register address. -/
def DCRSR : Nat := 0xE000EDF4

/-- The `CortexM.DCRSR_REGWnR` bit. -/
def DCRSR_REGWnR : Nat := 1 <<< 16

/-- The `CortexM.DCRDR` register address. -/
def DCRDR : Nat := 0xE000EDF8

/-- The `CortexM.DHCSR` register address. -/
def DHCSR : Nat := 0xE000EDF0

/-- The `CortexM.S_REGRDY` bit of DHCSR. -/
def S_REGRDY : Nat := 1 <<< 16

/-- The `CORE_REGISTER` index of the combined CFBP register. -/
def CORE_REGISTER_cfbp : Int := 20

/-- The `CORE_REGISTER` index of XPSR. -/
def CORE_REGISTER_xpsr : Int := 16

/-- The `CORE_REGISTER` index of the synthetic APSR register. -/
def CORE_REGISTER_apsr : Int := 0x10000

/-- The `CoreRegisterInfo.is_double_float_register`:
`-0x40 >= index > -0x60`. -/
def is_double_float_register (i : Int) : Bool :=
  decide (i ≤ -0x40) && decide (-0x60 < i)

/-- The `CoreRegisterInfo.is_cfbp_subregister`: `-4 <= index <= -1`. -/
def is_cfbp_subregister (i : Int) : Bool :=
  decide (-4 ≤ i) && decide (i ≤ -1)

/-- The `CoreRegisterInfo.is_psr_subregister`:
`0x10000 <= index <= 0x10007`. -/
def is_psr_subregister (i : Int) : Bool :=
  decide (0x10000 ≤ i) && decide (i ≤ 0x10007)

/-- The `APSR_MASK` from `pyocd/coresight/core_registers.py`. -/
def APSR_MASK : Nat := 0xF80F0000

/-- The `EPSR_MASK`. -/
def EPSR_MASK : Nat := 0x0700FC00

/-- The `IPSR_MASK`. -/
def IPSR_MASK : Nat := 0x000001FF

/-- The `CoreRegisterInfo.psr_mask`: build a PSR mask from the bottom three
bits of the MRS SYSm encoding of the index. -/
def psr_mask (i : Int) : Nat :=
  let m1 := if i.toNat &&& 1 ≠ 0 then IPSR_MASK else 0
  let m2 := if i.toNat &&& 2 ≠ 0 then m1 ||| EPSR_MASK else m1
  if i.toNat &&& 4 = 0 then m2 ||| APSR_MASK else m2

/-- First loop of `CortexM._base_write_core_registers_raw`: convert double
float registers to paired single writes and collect `reg_data_list`,
priming `cfbpValue` / `xpsrValue` on the first CFBP or PSR subregister.
In the source those primings call `self._base_read_core_register_raw`, a
method that is defined nowhere in the class (only the plural
`_base_read_core_registers_raw` exists); the value such a read would
produce is supplied here as `cfbpCur` / `xpsrCur`.  Note that the two
priming branches do not append the `(reg, data)` pair to the list, so the
first CFBP or PSR subregister of the request is dropped.
Returns the collected list and the final `cfbpValue` / `xpsrValue`. -/
def buildRegData (cfbpCur xpsrCur : Nat) :
    List (Int × Nat) → Option Nat → Option Nat →
    List (Int × Nat) × Option Nat × Option Nat
  | [], cfbpValue, xpsrValue => ([], cfbpValue, xpsrValue)
  | (reg, data) :: rest, cfbpValue, xpsrValue =>
    if is_double_float_register reg then
      let r := buildRegData cfbpCur xpsrCur rest cfbpValue xpsrValue
      ((-reg, data &&& 0xffffffff) ::
         (-reg + 1, (data >>> 32) &&& 0xffffffff) :: r.1, r.2)
    else if is_cfbp_subregister reg && cfbpValue.isNone then
      buildRegData cfbpCur xpsrCur rest (some cfbpCur) xpsrValue
    else if is_psr_subregister reg && xpsrValue.isNone then
      buildRegData cfbpCur xpsrCur rest cfbpValue (some xpsrCur)
    else
      let r := buildRegData cfbpCur xpsrCur rest cfbpValue xpsrValue
      ((reg, data) :: r.1, r.2)

/-- A debug operation issued by the register write loop: a memory-mapped
register write, or a (deferred) DHCSR read request. -/
inductive DebugOp where
  | writeMem : Nat → Nat → DebugOp
  | readDHCSR : DebugOp
  deriving DecidableEq, Repr

/-- Second loop of `CortexM._base_write_core_registers_raw`: for each
entry of `reg_data_list`, mask CFBP / PSR subregister values into the full
register value, write DCRDR, write DCRSR with `REGWnR`, and request a
DHCSR readback. -/
def writeRegLoop :
    List (Int × Nat) → Option Nat → Option Nat → List DebugOp
  | [], _, _ => []
  | (reg, data) :: rest, cfbpValue, xpsrValue =>
    if is_cfbp_subregister reg then
      let shift := ((-reg - 1) * 8).toNat
      let mask := 0xffffffff ^^^ (0xff <<< shift)
      let d := (cfbpValue.getD 0 &&& mask) ||| ((data &&& 0xff) <<< shift)
      DebugOp.writeMem DCRDR d ::
        DebugOp.writeMem DCRSR (CORE_REGISTER_cfbp.toNat ||| DCRSR_REGWnR) ::
        DebugOp.readDHCSR :: writeRegLoop rest (some d) xpsrValue
    else if is_psr_subregister reg then
      let mask := psr_mask reg
      let d := (xpsrValue.getD 0 &&& (0xffffffff ^^^ mask)) ||| (data &&& mask)
      DebugOp.writeMem DCRDR d ::
        DebugOp.writeMem DCRSR (CORE_REGISTER_xpsr.toNat ||| DCRSR_REGWnR) ::
        DebugOp.readDHCSR :: writeRegLoop rest cfbpValue (some d)
    else
      DebugOp.writeMem DCRDR data ::
        DebugOp.writeMem DCRSR (reg.toNat ||| DCRSR_REGWnR) ::
        DebugOp.readDHCSR :: writeRegLoop rest cfbpValue xpsrValue

/-- Final loop of `CortexM._base_write_core_registers_raw`: resolve each
deferred DHCSR read and raise `DebugError` at the first value with
`S_REGRDY` clear. -/
def checkRegWrites : List Nat → Except Unit Unit
  | [] => Except.ok ()
  | v :: rest =>
    if v &&& S_REGRDY = 0 then Except.error () else checkRegWrites rest

/-- The `CortexM._base_write_core_registers_raw(reg_list, data_list)` (the
lists zipped into `regs`): the issued debug operations, with the DHCSR
values polled during resolution supplied by the oracle `dhcsr` (one value
per written entry, in order), and the `DebugError` outcome. -/
def base_write_core_registers_raw (cfbpCur xpsrCur : Nat)
    (regs : List (Int × Nat)) (dhcsr : Nat → Nat) :
    List DebugOp × Except Unit Unit :=
  let b := buildRegData cfbpCur xpsrCur regs none none
  (writeRegLoop b.1 b.2.1 b.2.2,
   checkRegWrites ((List.range b.1.length).map dhcsr))

end CortexM

/-!
Shared arithmetic helper lemmas.
-/

theorem and255_eq_mod (x : Nat) : x &&& 255 = x % 256 := by
  have h := Nat.and_pow_two_sub_one_eq_mod x 8
  norm_num at h
  exact h

theorem and1023_eq_mod (x : Nat) : x &&& 1023 = x % 1024 := by
  have h := Nat.and_pow_two_sub_one_eq_mod x 10
  norm_num at h
  exact h

theorem and4095_eq_mod (x : Nat) : x &&& 4095 = x % 4096 := by
  have h := Nat.and_pow_two_sub_one_eq_mod x 12
  norm_num at h
  exact h

theorem shr8_eq_div (x : Nat) : x >>> 8 = x / 256 := by
  have h := Nat.shiftRight_eq_div_pow x 8
  norm_num at h
  exact h

theorem shr16_eq_div (x : Nat) : x >>> 16 = x / 65536 := by
  have h := Nat.shiftRight_eq_div_pow x 16
  norm_num at h
  exact h

theorem shr24_eq_div (x : Nat) : x >>> 24 = x / 16777216 := by
  have h := Nat.shiftRight_eq_div_pow x 24
  norm_num at h
  exact h

/-- One-step unfolding of the aligned block write loop. -/
theorem writeBlock32Go_succ (pageSize fuel addr : Nat) (data : List Nat) :
    MemAp.writeBlock32Go pageSize (fuel + 1) addr data =
      if data.length = 0 then []
      else
        (addr, data.take (MemAp.alignedChunkLen pageSize addr data.length / 4)) ::
          MemAp.writeBlock32Go pageSize fuel
            (addr + MemAp.alignedChunkLen pageSize addr data.length)
            (data.drop (MemAp.alignedChunkLen pageSize addr data.length / 4)) := rfl

/-- The aligned block write loop on an empty word list issues nothing. -/
theorem writeBlock32Go_nil (pageSize fuel addr : Nat) :
    MemAp.writeBlock32Go pageSize fuel addr [] = [] := by
  cases fuel <;> rfl

/-!
Claim C1.
-/

/-- C1 (amended): every aligned 32-bit block transfer computes each chunk
length as `n = page_size - (addr & (page_size-1))`, clamped to
`(remaining*4) & ~3` when the remaining byte count is smaller; with the
4 KiB auto-increment page size (`0x1000`, the M3/M4 wrap size) a block
write of 2048 bytes starting at `page_base + page_size - 4` is split at
the page boundary into exactly two transport transactions of 4 and 2044
bytes.  (With the default `0x400` page size the same write takes three
transactions; see the counterexample.) -/
theorem writeBlockAligned32_chunks_and_split (B : Nat) (data : List Nat)
    (hB : B % 4096 = 0) (hlen : data.length = 512) :
    (∀ pageSize a (d : List Nat), d ≠ [] →
      (MemAp.writeBlockMemoryAligned32 pageSize a d).head? =
        some (a, d.take (MemAp.alignedChunkLen pageSize a d.length / 4))) ∧
    MemAp.writeBlockMemoryAligned32 4096 (B + 4096 - 4) data =
      [(B + 4092, data.take 1), (B + 4096, data.drop 1)] := by
  constructor
  · intro pageSize a d hd
    rw [MemAp.writeBlockMemoryAligned32, writeBlock32Go_succ,
      if_neg (by simpa using hd)]
    rfl
  · have ha : B + 4096 - 4 = B + 4092 := by omega
    have hc1 : MemAp.alignedChunkLen 4096 (B + 4092) 512 = 4 := by
      unfold MemAp.alignedChunkLen
      rw [show (4096 - 1 : Nat) = 4095 from rfl, and4095_eq_mod]
      have : (B + 4092) % 4096 = 4092 := by omega
      rw [this]
      norm_num
    have hc2 : MemAp.alignedChunkLen 4096 (B + 4096) 511 = 2044 := by
      unfold MemAp.alignedChunkLen
      rw [show (4096 - 1 : Nat) = 4095 from rfl, and4095_eq_mod]
      have : (B + 4096) % 4096 = 0 := by omega
      rw [this]
      norm_num
      decide
    rw [MemAp.writeBlockMemoryAligned32, hlen, ha, writeBlock32Go_succ,
      if_neg (by rw [hlen]; omega), hlen, hc1]
    have hlen1 : (data.drop 1).length = 511 := by rw [List.length_drop, hlen]
    have e : MemAp.writeBlock32Go 4096 512 (B + 4092 + 4) (data.drop (4 / 4)) =
        if (data.drop 1).length = 0 then []
        else
          (B + 4092 + 4,
            (data.drop 1).take
              (MemAp.alignedChunkLen 4096 (B + 4092 + 4) (data.drop 1).length / 4)) ::
            MemAp.writeBlock32Go 4096 511
              (B + 4092 + 4 + MemAp.alignedChunkLen 4096 (B + 4092 + 4) (data.drop 1).length)
              ((data.drop 1).drop
                (MemAp.alignedChunkLen 4096 (B + 4092 + 4) (data.drop 1).length / 4)) :=
      writeBlock32Go_succ 4096 511 (B + 4092 + 4) (data.drop 1)
    rw [e, if_neg (by rw [hlen1]; omega), hlen1,
      show B + 4092 + 4 = B + 4096 by omega]
    rw [hc2]
    have hdrop : (data.drop 1).drop (2044 / 4) = [] :=
      List.eq_nil_of_length_eq_zero (by simp [hlen])
    have ht : List.take (2044 / 4) (List.drop 1 data) = List.drop 1 data :=
      List.take_of_length_le (by rw [hlen1])
    rw [hdrop, writeBlock32Go_nil, ht]

set_option maxRecDepth 40000 in
/-- C1 (counterexample): with the default auto-increment page size
`0x400`, a 2048-byte aligned block write at `page_base + page_size - 4`
(here `page_base = 0x20000000`) is split into three transport
transactions of 4, 1024 and 1020 bytes, not two. -/
theorem writeBlockAligned32_default_page_three_transactions :
    ((MemAp.writeBlockMemoryAligned32 0x400 (0x20000000 + 0x400 - 4)
        (List.replicate 512 0)).map fun t => (t.1, 4 * t.2.length)) =
      [(0x200003FC, 4), (0x20000400, 1024), (0x20000800, 1020)] ∧
    (MemAp.writeBlockMemoryAligned32 0x400 (0x20000000 + 0x400 - 4)
        (List.replicate 512 0)).length ≠ 2 :=
  ⟨rfl, by decide⟩

set_option maxRecDepth 40000 in
/-- C1 (witness): the split theorem applied at `page_base = 0x20000000`
with a 512-word buffer. -/
theorem writeBlockAligned32_chunks_and_split_witness :
    0x20000000 % 4096 = 0 ∧ (List.replicate 512 (0 : Nat)).length = 512 ∧
    MemAp.writeBlockMemoryAligned32 4096 (0x20000000 + 4096 - 4)
        (List.replicate 512 0) =
      [(0x20000000 + 4092, (List.replicate 512 (0 : Nat)).take 1),
       (0x20000000 + 4096, (List.replicate 512 (0 : Nat)).drop 1)] :=
  ⟨by norm_num, by simp,
   (writeBlockAligned32_chunks_and_split 0x20000000 (List.replicate 512 0)
      (by norm_num) (by simp)).2⟩

/-!
Claim C2.
-/

/-- C2 (counterexample): `read_memory_block8(0x20000001, 7)` issues only
three transport operations — an 8-bit read at the start address, a 16-bit
read at offset +1 and one aligned 32-bit block read of one word at
offset +3 — with no trailing 8-bit read at offset +7, because the three
segments already cover 1+2+4 = 7 bytes. -/
theorem readBlockUnaligned8_no_trailing_read8 :
    (MemAp.readBlockMemoryUnaligned8 0x400 (fun _ => 0) 0x20000001 7).1 =
      [MemAp.MemOp.read8 0x20000001, MemAp.MemOp.read16 0x20000002,
       MemAp.MemOp.readBlock32 0x20000004 1] ∧
    (MemAp.readBlockMemoryUnaligned8 0x400 (fun _ => 0) 0x20000001 7).1 ≠
      [MemAp.MemOp.read8 0x20000001, MemAp.MemOp.read16 0x20000002,
       MemAp.MemOp.readBlock32 0x20000004 1, MemAp.MemOp.read8 0x20000008] :=
  ⟨rfl, by decide⟩

/-- One-step unfolding of the aligned block read loop. -/
theorem readAligned32Go_succ (pageSize fuel addr size : Nat) (mem : Nat → Nat) :
    MemAp.readAligned32Go pageSize mem (fuel + 1) addr size =
      if size = 0 then ([], [])
      else
        (MemAp.MemOp.readBlock32 addr (MemAp.alignedChunkLen pageSize addr size / 4) ::
          (MemAp.readAligned32Go pageSize mem fuel (addr + MemAp.alignedChunkLen pageSize addr size)
            (size - MemAp.alignedChunkLen pageSize addr size / 4)).1,
         ((List.range (MemAp.alignedChunkLen pageSize addr size / 4)).map fun i =>
            MemAp.read32val mem (addr + 4 * i)) ++
          (MemAp.readAligned32Go pageSize mem fuel (addr + MemAp.alignedChunkLen pageSize addr size)
            (size - MemAp.alignedChunkLen pageSize addr size / 4)).2) := rfl

/-- The aligned block read loop at size zero issues nothing. -/
theorem readAligned32Go_zero (pageSize fuel addr : Nat) (mem : Nat → Nat) :
    MemAp.readAligned32Go pageSize mem fuel addr 0 = ([], []) := by
  cases fuel <;> rfl

/-- Evaluation of the leading 8-bit segment when its condition holds. -/
theorem step8lead_t (mem : Nat → Nat) (ops : List MemAp.MemOp) (res : List Nat)
    (addr size : Nat) (h1 : 0 < size) (h2 : addr &&& 0x01 ≠ 0) :
    MemAp.step8lead mem ⟨ops, res, addr, size⟩ =
      ⟨ops ++ [MemAp.MemOp.read8 addr], res ++ [MemAp.byteAt mem addr],
       addr + 1, size - 1⟩ := by
  unfold MemAp.step8lead
  rw [if_pos ⟨h1, h2⟩]

/-- Evaluation of the leading 16-bit segment when its condition holds. -/
theorem step16lead_t (mem : Nat → Nat) (ops : List MemAp.MemOp) (res : List Nat)
    (addr size : Nat) (h1 : 1 < size) (h2 : addr &&& 0x02 ≠ 0) :
    MemAp.step16lead mem ⟨ops, res, addr, size⟩ =
      ⟨ops ++ [MemAp.MemOp.read16 addr],
       res ++ [MemAp.read16val mem addr &&& 0xff,
               (MemAp.read16val mem addr >>> 8) &&& 0xff],
       addr + 2, size - 2⟩ := by
  unfold MemAp.step16lead
  rw [if_pos ⟨h1, h2⟩]

/-- Evaluation of the aligned 32-bit segment when its condition holds. -/
theorem step32_t (pageSize : Nat) (mem : Nat → Nat) (ops : List MemAp.MemOp)
    (res : List Nat) (addr size : Nat) (h : 4 ≤ size) :
    MemAp.step32 pageSize mem ⟨ops, res, addr, size⟩ =
      ⟨ops ++ (MemAp.readBlockMemoryAligned32 pageSize mem addr (size / 4)).1,
       res ++ MemAp.word2byte (MemAp.readBlockMemoryAligned32 pageSize mem addr (size / 4)).2,
       addr + 4 * (MemAp.readBlockMemoryAligned32 pageSize mem addr (size / 4)).2.length,
       size - 4 * (MemAp.readBlockMemoryAligned32 pageSize mem addr (size / 4)).2.length⟩ := by
  unfold MemAp.step32
  rw [if_pos h]

/-- The trailing 16-bit segment is skipped when fewer than two bytes
remain. -/
theorem step16trail_f (mem : Nat → Nat) (ops : List MemAp.MemOp) (res : List Nat)
    (addr size : Nat) (h : ¬ 1 < size) :
    MemAp.step16trail mem ⟨ops, res, addr, size⟩ = ⟨ops, res, addr, size⟩ := by
  unfold MemAp.step16trail
  rw [if_neg h]

/-- The trailing 8-bit segment is skipped when no byte remains. -/
theorem step8trail_f (mem : Nat → Nat) (ops : List MemAp.MemOp) (res : List Nat)
    (addr size : Nat) (h : ¬ 0 < size) :
    MemAp.step8trail mem ⟨ops, res, addr, size⟩ = ⟨ops, res, addr, size⟩ := by
  unfold MemAp.step8trail
  rw [if_neg h]

/-- C2 (amended): `read_memory_block8(0x20000001, 7)` decomposes into
exactly the sequence: one 8-bit read at the start address, one 16-bit read
at offset +1, and one aligned 32-bit block read (of one word) at
offset +3 — with no trailing read, since the 1+2+4 bytes of those three
segments already cover the request — and the concatenation of the results
equals the 7-byte buffer at that address, for every target memory. -/
theorem readBlockUnaligned8_decomposition (mem : Nat → Nat) :
    MemAp.readBlockMemoryUnaligned8 0x400 mem 0x20000001 7 =
      ([MemAp.MemOp.read8 0x20000001, MemAp.MemOp.read16 0x20000002,
        MemAp.MemOp.readBlock32 0x20000004 1],
       [mem 0x20000001 % 256, mem 0x20000002 % 256, mem 0x20000003 % 256,
        mem 0x20000004 % 256, mem 0x20000005 % 256, mem 0x20000006 % 256,
        mem 0x20000007 % 256]) := by
  have hr : MemAp.readBlockMemoryAligned32 0x400 mem 0x20000004 1 =
      ([MemAp.MemOp.readBlock32 0x20000004 1], [MemAp.read32val mem 0x20000004]) := by
    unfold MemAp.readBlockMemoryAligned32
    rw [readAligned32Go_succ, if_neg (by decide),
      show MemAp.alignedChunkLen 0x400 0x20000004 1 = 4 by decide]
    rw [show (1 - 4 / 4 : Nat) = 0 by decide, readAligned32Go_zero,
      show (4 / 4 : Nat) = 1 by decide]
    simp [List.range_succ]
  unfold MemAp.readBlockMemoryUnaligned8
  rw [step8lead_t mem]
  norm_num
  rw [step16lead_t mem]
  norm_num
  rw [step32_t 0x400 mem]
  norm_num
  rw [hr]
  norm_num
  rw [step16trail_f mem _ _ _ _ (by norm_num), step8trail_f mem _ _ _ _ (by norm_num)]
  simp only [MemAp.word2byte, MemAp.read16val, MemAp.read32val, MemAp.byteAt,
    List.flatMap_cons, List.flatMap_nil, List.append_nil, List.nil_append,
    List.cons_append, List.append_assoc]
  refine ⟨trivial, ?_⟩
  simp only [and255_eq_mod, shr8_eq_div, shr16_eq_div, shr24_eq_div,
    List.cons.injEq, and_true]
  norm_num
  omega
  all_goals decide

/-!
Claim C3.
-/

/-- C3 (amended): at flush time, for an added breakpoint whose address
lies in a flash region, the HW (FPB) provider is chosen only when the FPB
is present and strictly more than `MIN_HW_BREAKPOINTS` (= 1) comparators
remain free, except that when exactly one breakpoint is being added in a
non-stepping flush, HW may be chosen with any nonzero number of free
comparators (second conjunct); for an address with no known memory region
the selection falls back to HW regardless of the number of free
comparators (see the counterexample). -/
theorem select_breakpoint_type_reserve_policy
    (req : BreakpointManager.BpRequestType) (addr avail addedLen : Nat)
    (isStep fp fl ram : Bool) :
    (BreakpointManager.select_breakpoint_type ⟨some ⟨true, ram⟩, fp, avail, fl⟩
        req addr (BreakpointManager.allowAllHwBps isStep addedLen) =
          some BreakpointManager.BpRequestType.hw →
      fp = true ∧ (BreakpointManager.MIN_HW_BREAKPOINTS < avail ∨
        (isStep = false ∧ addedLen = 1 ∧ 0 < avail))) ∧
    (addr < 0x20000000 → 0 < avail →
      BreakpointManager.select_breakpoint_type ⟨some ⟨true, false⟩, true, avail, fl⟩
        BreakpointManager.BpRequestType.auto addr
        (BreakpointManager.allowAllHwBps false 1) =
          some BreakpointManager.BpRequestType.hw) := by
  constructor
  · intro h
    unfold BreakpointManager.select_breakpoint_type at h
    simp only [BreakpointManager.allowAllHwBps,
      BreakpointManager.MIN_HW_BREAKPOINTS] at h ⊢
    repeat' split at h
    all_goals try simp_all
    all_goals tauto
  · intro h1 h2
    unfold BreakpointManager.select_breakpoint_type BreakpointManager.allowAllHwBps
    simp [h1, h2]

/-- C3 (counterexample): for an address with no memory region information
the selection chooses HW even when zero comparators are free (and so also
when not more than `MIN_HW_BREAKPOINTS` are free), with more than one
breakpoint being added (`allowAllHwBps = false`). -/
theorem select_breakpoint_type_unknown_region_hw :
    BreakpointManager.select_breakpoint_type ⟨none, true, 0, false⟩
      BreakpointManager.BpRequestType.auto 0x08000000 false =
      some BreakpointManager.BpRequestType.hw ∧
    ¬ BreakpointManager.MIN_HW_BREAKPOINTS < 0 ∧ ¬ (0 : Nat) < 0 := by
  decide

/-- C3 (witness): the reserve policy theorem applied with one free
comparator in a single-add non-stepping flush at a flash address. -/
theorem select_breakpoint_type_reserve_policy_witness :
    BreakpointManager.select_breakpoint_type ⟨some ⟨true, false⟩, true, 1, false⟩
      BreakpointManager.BpRequestType.auto 0x08000000
      (BreakpointManager.allowAllHwBps false 1) =
        some BreakpointManager.BpRequestType.hw ∧
    (true = true ∧ (BreakpointManager.MIN_HW_BREAKPOINTS < 1 ∨
      (false = false ∧ 1 = 1 ∧ 0 < 1))) :=
  ⟨(select_breakpoint_type_reserve_policy BreakpointManager.BpRequestType.auto
      0x08000000 1 1 false true false false).2 (by decide) (by decide),
   (select_breakpoint_type_reserve_policy BreakpointManager.BpRequestType.auto
      0x08000000 1 1 false true false false).1 (by decide)⟩

/-!
Claim C4.
-/

/-- The `(addr & APSEL) | (addr & APBANKSEL)` equals `addr & 0xFF0000F0`. -/
theorem apsel_bank_or (addr : Nat) :
    (addr &&& DebugPort.APSEL) ||| (addr &&& DebugPort.APBANKSEL) =
      addr &&& 0xFF0000F0 := by
  rw [DebugPort.APSEL, DebugPort.APBANKSEL, ← Nat.and_or_distrib_left,
    show (0xff000000 ||| 0x000000f0 : Nat) = 0xFF0000F0 by decide]

/-- C4: every AP access writes SELECT with `addr28 & 0xFF0000F0`, skipping
the write exactly when that value equals the cached SELECT; after a
transfer error (`_handle_error`, which also covers transport faults) or a
reset the cache holds the `-1` sentinel, which no SELECT value can equal,
so the next AP operation (write or read) re-issues the SELECT write. -/
theorem writeAP_select_cache (st : DebugPort.DPState) (addr data : Nat) :
    (DebugPort.writeAP st addr data).selectWrite =
      (if ((addr &&& 0xFF0000F0 : Nat) : Int) = st.dp_select then none
       else some (addr &&& 0xFF0000F0)) ∧
    (DebugPort.writeAP (DebugPort.handleError st) addr data).selectWrite =
      some (addr &&& 0xFF0000F0) ∧
    (DebugPort.writeAP (DebugPort.dpReset st) addr data).selectWrite =
      some (addr &&& 0xFF0000F0) ∧
    (DebugPort.readAP (DebugPort.handleError st) addr).2 =
      some (addr &&& 0xFF0000F0) ∧
    (DebugPort.readAP st addr).2 =
      (if ((addr &&& 0xFF0000F0 : Nat) : Int) = st.dp_select then none
       else some (addr &&& 0xFF0000F0)) := by
  have hne : ((addr &&& 0xFF0000F0 : Nat) : Int) ≠ -1 := by
    have := Int.natCast_nonneg (addr &&& 0xFF0000F0)
    omega
  refine ⟨?_, ?_, ?_, ?_, ?_⟩ <;>
    simp only [DebugPort.writeAP, DebugPort.readAP, DebugPort.writeSelect,
      DebugPort.handleError, DebugPort.dpReset, apsel_bank_or] <;>
    split_ifs <;>
    simp_all

/-!
Claim C5.
-/

/-- On the all-zero response sequence the power-up polling loop never
exits, whatever the fuel. -/
theorem powerUpPoll_none_of_zero :
    ∀ fuel k, DebugPort.powerUpPoll (fun _ => 0) fuel k = none := by
  intro fuel
  induction fuel with
  | zero => intro k; rfl
  | succ n ih =>
    intro k
    unfold DebugPort.powerUpPoll
    rw [if_neg (by decide)]
    exact ih (k + 1)

/-- If some polled CTRL/STAT value has both ACK bits set, the polling loop
exits within that many iterations. -/
theorem powerUpPoll_isSome (seq : Nat → Nat) :
    ∀ n k, DebugPort.powerUpAcksSet (seq (k + n)) →
      (DebugPort.powerUpPoll seq (n + 1) k).isSome := by
  intro n
  induction n with
  | zero =>
    intro k h
    unfold DebugPort.powerUpPoll
    rw [if_pos (by simpa using h)]
    rfl
  | succ m ih =>
    intro k h
    unfold DebugPort.powerUpPoll
    by_cases hk : DebugPort.powerUpAcksSet (seq k)
    · rw [if_pos hk]
      rfl
    · rw [if_neg hk]
      exact ih (k + 1) (by rw [show k + 1 + m = k + (m + 1) by omega]; exact h)

/-- C5 (counterexample): the `powerUpDebug` polling loop has no timeout at
all: on a response sequence in which `CDBGPWRUPACK` and `CSYSPWRUPACK`
never become set (here constantly zero) the loop never terminates, for any
number of polls. -/
theorem powerUpDebug_does_not_terminate_on_zero :
    ¬ DebugPort.PowerUpLoopTerminates (fun _ => 0) := by
  rintro ⟨fuel, hs⟩
  rw [powerUpPoll_none_of_zero fuel 0] at hs
  exact Bool.noConfusion hs

/-- C5 (amended): `powerUpDebug` writes SELECT 0 (cache permitting) and
`CSYSPWRUPREQ | CDBGPWRUPREQ` to CTRL/STAT and then polls CTRL/STAT with
no timeout: the loop terminates if (and, per the counterexample, only if)
some polled value eventually has both ACK bits set, in which case the
normal-transaction / mask-lane value is then written to CTRL/STAT (the
final SELECT 0 write is elided by the cache just updated). -/
theorem powerUpDebug_success (st : DebugPort.DPState) (seq : Nat → Nat)
    (n : Nat) (h : DebugPort.powerUpAcksSet (seq n)) :
    DebugPort.PowerUpLoopTerminates seq ∧
    ∃ st2, DebugPort.powerUpDebug st seq (n + 1) =
      some (st2,
        (if st.dp_select = 0 then ([] : List DebugPort.DPWrite)
         else [DebugPort.DPWrite.select 0]) ++
        [DebugPort.DPWrite.ctrlStat
          (DebugPort.CSYSPWRUPREQ ||| DebugPort.CDBGPWRUPREQ),
         DebugPort.DPWrite.ctrlStat
          (DebugPort.CSYSPWRUPREQ ||| DebugPort.CDBGPWRUPREQ |||
            DebugPort.TRNNORMAL ||| DebugPort.MASKLANE)]) := by
  have hs := powerUpPoll_isSome seq n 0 (by simpa using h)
  constructor
  · exact ⟨n + 1, hs⟩
  · obtain ⟨j, hj⟩ := Option.isSome_iff_exists.mp hs
    obtain ⟨csw, dpsel⟩ := st
    refine ⟨⟨csw, 0⟩, ?_⟩
    unfold DebugPort.powerUpDebug DebugPort.writeSelect
    rw [hj]
    by_cases h0 : dpsel = 0
    · subst h0
      simp
    · rw [if_neg (by simpa using fun hh => h0 hh.symm), if_neg (by simpa using h0)]
      simp

/-- C5 (witness): the success theorem applied to the constant response
`0xA0000000` (both ACK bits set) from the initial cache state. -/
theorem powerUpDebug_success_witness :
    DebugPort.powerUpAcksSet 0xA0000000 ∧
    (DebugPort.PowerUpLoopTerminates (fun _ => 0xA0000000) ∧
     ∃ st2, DebugPort.powerUpDebug DebugPort.initState (fun _ => 0xA0000000) (0 + 1) =
       some (st2,
         (if DebugPort.initState.dp_select = 0 then ([] : List DebugPort.DPWrite)
          else [DebugPort.DPWrite.select 0]) ++
         [DebugPort.DPWrite.ctrlStat
           (DebugPort.CSYSPWRUPREQ ||| DebugPort.CDBGPWRUPREQ),
          DebugPort.DPWrite.ctrlStat
           (DebugPort.CSYSPWRUPREQ ||| DebugPort.CDBGPWRUPREQ |||
             DebugPort.TRNNORMAL ||| DebugPort.MASKLANE)])) :=
  ⟨by decide,
   powerUpDebug_success DebugPort.initState (fun _ => 0xA0000000) 0 (by decide)⟩

/-!
Claim C6.
-/

/-- The comparator scan of `FPB.set_breakpoint` programs the first
disabled comparator with the FPB encoding. -/
theorem setBpScan_first_free (addr : Nat) :
    ∀ (pre : List FPB.HwBreakpoint) (bp : FPB.HwBreakpoint)
      (post : List FPB.HwBreakpoint),
      (∀ b ∈ pre, b.enabled = true) → bp.enabled = false →
      FPB.setBpScan addr (pre ++ bp :: post) =
        some (pre ++ { bp with enabled := true, addr := addr } :: post,
          bp.comp_register_addr,
          (addr &&& 0x1ffffffc) |||
            (if addr &&& 0x2 ≠ 0 then 2 <<< 30 else 1 <<< 30) ||| 1) := by
  intro pre
  induction pre with
  | nil =>
    intro bp post _ hbp
    simp [FPB.setBpScan, hbp]
  | cons b rest ih =>
    intro bp post hpre hbp
    have hb : b.enabled = true := hpre b (by simp)
    rw [List.cons_append]
    unfold FPB.setBpScan
    rw [if_pos hb, ih bp post (fun x hx => hpre x (by simp [hx])) hbp]
    rfl

/-- C6: `FPB.set_breakpoint(addr)` fails for every `addr >= 0x20000000`
without touching any comparator (second conjunct); for `addr < 0x20000000`
with a free comparator it writes the first free comparator with
`(addr & 0x1FFFFFFC) | bp_match | 1` where
`bp_match = (2 << 30) if (addr & 2) else (1 << 30)` (first conjunct), so
at `addr = 0x1FFFFFFE` the match field is `2 << 30` (third conjunct). -/
theorem fpb_set_breakpoint_encoding (st : FPB.FPBState) (addr : Nat)
    (pre post : List FPB.HwBreakpoint) (bp : FPB.HwBreakpoint)
    (hsplit : st.hw_breakpoints = pre ++ bp :: post)
    (hpre : ∀ b ∈ pre, b.enabled = true)
    (hbp : bp.enabled = false)
    (hav : FPB.available_breakpoints st ≠ 0)
    (hlt : addr < 0x20000000) :
    ((FPB.set_breakpoint st addr).success = true ∧
     (FPB.set_breakpoint st addr).writes =
       (if st.fpb_enabled then [] else [(FPB.FP_CTRL, FPB.FP_CTRL_KEY ||| 1)]) ++
       [(bp.comp_register_addr,
         (addr &&& 0x1ffffffc) |||
           (if addr &&& 0x2 ≠ 0 then 2 <<< 30 else 1 <<< 30) ||| 1)]) ∧
    (∀ (st2 : FPB.FPBState) (a2 : Nat), 0x20000000 ≤ a2 →
      (FPB.set_breakpoint st2 a2).success = false ∧
      (FPB.set_breakpoint st2 a2).writes =
        (if st2.fpb_enabled then [] else [(FPB.FP_CTRL, FPB.FP_CTRL_KEY ||| 1)])) ∧
    ((if (0x1FFFFFFE : Nat) &&& 0x2 ≠ 0 then 2 <<< 30 else 1 <<< 30) =
      2 <<< 30) := by
  obtain ⟨comps, used, en⟩ := st
  refine ⟨?_, ?_, by decide⟩
  · simp only [FPB.set_breakpoint]
    cases en <;>
      simp only [if_true, if_false, Bool.false_eq_true] <;>
      rw [if_neg (by omega)] <;>
      rw [if_neg (by simpa [FPB.available_breakpoints] using hav)] <;>
      simp only at hsplit <;>
      rw [hsplit, setBpScan_first_free addr pre bp post hpre hbp] <;>
      simp
  · intro st2 a2 h2
    obtain ⟨c2, u2, e2⟩ := st2
    simp only [FPB.set_breakpoint]
    cases e2 <;> simp [if_pos h2]

/-- C6 (witness): the encoding theorem applied to an FPB with one free
comparator and `addr = 0x1FFFFFFE`. -/
theorem fpb_set_breakpoint_encoding_witness :
    (((FPB.set_breakpoint ⟨[⟨0xE0002008, false, 0⟩], 0, true⟩ 0x1FFFFFFE).success = true ∧
      (FPB.set_breakpoint ⟨[⟨0xE0002008, false, 0⟩], 0, true⟩ 0x1FFFFFFE).writes =
        (if (FPB.FPBState.mk [⟨0xE0002008, false, 0⟩] 0 true).fpb_enabled then []
         else [(FPB.FP_CTRL, FPB.FP_CTRL_KEY ||| 1)]) ++
        [((FPB.HwBreakpoint.mk 0xE0002008 false 0).comp_register_addr,
          (0x1FFFFFFE &&& 0x1ffffffc) |||
            (if (0x1FFFFFFE : Nat) &&& 0x2 ≠ 0 then 2 <<< 30 else 1 <<< 30) ||| 1)]) ∧
     (∀ (st2 : FPB.FPBState) (a2 : Nat), 0x20000000 ≤ a2 →
       (FPB.set_breakpoint st2 a2).success = false ∧
       (FPB.set_breakpoint st2 a2).writes =
         (if st2.fpb_enabled then [] else [(FPB.FP_CTRL, FPB.FP_CTRL_KEY ||| 1)])) ∧
     ((if (0x1FFFFFFE : Nat) &&& 0x2 ≠ 0 then 2 <<< 30 else 1 <<< 30) =
       2 <<< 30)) :=
  fpb_set_breakpoint_encoding ⟨[⟨0xE0002008, false, 0⟩], 0, true⟩ 0x1FFFFFFE
    [] [] ⟨0xE0002008, false, 0⟩ rfl (by simp) rfl (by decide) (by decide)

/-!
Claim C7.
-/

/-- C7 (code bug evaluation): a write of `0xF8000000` to the synthetic
APSR register (DCRSR index `0x10000`) is dropped entirely by
`_base_write_core_registers_raw`: the first loop consumes the APSR entry
while priming `xpsrValue` (via a call to the undefined method
`_base_read_core_register_raw`) without appending it to `reg_data_list`,
so no DCRDR/DCRSR write is issued at all and no `DebugError` can be
raised — no read-modify-write of xPSR takes place.  The per-subfield masks
themselves are as specified: `psr_mask` maps APSR/IPSR/EPSR to
`0xF80F0000` / `0x000001FF` / `0x0700FC00`. -/
theorem write_apsr_dropped (cfbpCur xpsrCur : Nat) (dhcsr : Nat → Nat) :
    CortexM.buildRegData cfbpCur xpsrCur
        [(CortexM.CORE_REGISTER_apsr, 0xF8000000)] none none =
      ([], none, some xpsrCur) ∧
    (CortexM.base_write_core_registers_raw cfbpCur xpsrCur
        [(CortexM.CORE_REGISTER_apsr, 0xF8000000)] dhcsr).1 = [] ∧
    (CortexM.base_write_core_registers_raw cfbpCur xpsrCur
        [(CortexM.CORE_REGISTER_apsr, 0xF8000000)] dhcsr).2 = Except.ok () ∧
    CortexM.psr_mask CortexM.CORE_REGISTER_apsr = CortexM.APSR_MASK ∧
    CortexM.psr_mask 0x10005 = CortexM.IPSR_MASK ∧
    CortexM.psr_mask 0x10006 = CortexM.EPSR_MASK :=
  ⟨rfl, rfl, rfl, by decide, by decide, by decide⟩

/-!
Claim C9.
-/

/-- The final loop of `_base_write_core_registers_raw` raises `DebugError`
exactly when some resolved DHCSR value has `S_REGRDY` clear. -/
theorem checkRegWrites_error_iff (vals : List Nat) :
    CortexM.checkRegWrites vals = Except.error () ↔
      ∃ v ∈ vals, v &&& CortexM.S_REGRDY = 0 := by
  induction vals with
  | nil => simp [CortexM.checkRegWrites]
  | cons v rest ih =>
    unfold CortexM.checkRegWrites
    by_cases hv : v &&& CortexM.S_REGRDY = 0
    · simp [hv]
    · simp [hv, ih]

/-- A memory write is never the DHCSR read marker. -/
theorem beq_writeMem_readDHCSR (x y : Nat) :
    (CortexM.DebugOp.writeMem x y == CortexM.DebugOp.readDHCSR) = false := rfl

/-- The register write loop requests exactly one DHCSR readback per
written entry. -/
theorem writeRegLoop_count (l : List (Int × Nat)) :
    ∀ c x, (CortexM.writeRegLoop l c x).count CortexM.DebugOp.readDHCSR =
      l.length := by
  induction l with
  | nil => intro c x; rfl
  | cons p rest ih =>
    intro c x
    obtain ⟨reg, data⟩ := p
    unfold CortexM.writeRegLoop
    split_ifs <;>
      simp [List.count_cons, beq_writeMem_readDHCSR, ih]

/-- C9: `_base_write_core_registers_raw` issues the DCRDR/DCRSR writes for
every entry of `reg_data_list`, polls one DHCSR value per written entry,
and raises `DebugError` if and only if at least one of those DHCSR values
has `S_REGRDY` clear; when every polled value has `S_REGRDY` set it
returns without error. -/
theorem write_regs_debug_error_iff (cfbpCur xpsrCur : Nat)
    (regs : List (Int × Nat)) (dhcsr : Nat → Nat) :
    ((CortexM.base_write_core_registers_raw cfbpCur xpsrCur regs dhcsr).2 =
        Except.error () ↔
      ∃ i < (CortexM.buildRegData cfbpCur xpsrCur regs none none).1.length,
        dhcsr i &&& CortexM.S_REGRDY = 0) ∧
    (CortexM.base_write_core_registers_raw cfbpCur xpsrCur regs dhcsr).1.count
        CortexM.DebugOp.readDHCSR =
      (CortexM.buildRegData cfbpCur xpsrCur regs none none).1.length := by
  constructor
  · rw [CortexM.base_write_core_registers_raw, checkRegWrites_error_iff]
    simp
  · rw [CortexM.base_write_core_registers_raw]
    exact writeRegLoop_count _ _ _

/-!
Claim C8.
-/

/-- C8: `BreakpointManager.set_breakpoint(a, AUTO)` is idempotent: the
first call returns success, and a second call at the same address returns
success and leaves the pending map exactly as the first call left it. -/
theorem manager_set_breakpoint_idempotent (st : BreakpointManager.ManagerState)
    (addr : Nat) (ty : BreakpointManager.BpRequestType) :
    (BreakpointManager.set_breakpoint st addr ty).2 = true ∧
    BreakpointManager.set_breakpoint
        (BreakpointManager.set_breakpoint st addr ty).1 addr ty =
      ((BreakpointManager.set_breakpoint st addr ty).1, true) := by
  unfold BreakpointManager.set_breakpoint
  cases h : st.updated_breakpoints (BreakpointManager.clearThumb addr) with
  | some bp => simp [h]
  | none => simp [h]

/-!
Claim C10.
-/

/-- C10: `BreakpointManager.remove_breakpoint(addr)` for an address with
no pending breakpoint leaves the state (both the live and the pending
maps) unchanged; the internal `del` raises `KeyError`, which is caught and
only logged. -/
theorem remove_breakpoint_missing_noop (st : BreakpointManager.ManagerState)
    (addr : Nat)
    (h : st.updated_breakpoints (BreakpointManager.clearThumb addr) = none) :
    BreakpointManager.remove_breakpoint st addr = st ∧
    BreakpointManager.delItem st.updated_breakpoints
      (BreakpointManager.clearThumb addr) = Except.error () := by
  unfold BreakpointManager.remove_breakpoint BreakpointManager.delItem
  rw [h]
  exact ⟨rfl, rfl⟩

/-- C10 (witness): removing address 5 from a manager with no breakpoints
at all is a no-op. -/
theorem remove_breakpoint_missing_noop_witness :
    BreakpointManager.remove_breakpoint ⟨fun _ => none, fun _ => none⟩ 5 =
      (⟨fun _ => none, fun _ => none⟩ : BreakpointManager.ManagerState) ∧
    BreakpointManager.delItem (fun _ => none)
      (BreakpointManager.clearThumb 5) = Except.error () :=
  remove_breakpoint_missing_noop ⟨fun _ => none, fun _ => none⟩ 5 rfl
